import Mathlib

/-!
Verification of the Query Resolution & Retention Engine of the
document-extraction backend, as a shallow embedding of the Python source.

Embedded modules:
* `lib/aws_service.py`    — `AWSService.get_file`, `AWSService.analyze_document`
  (the batch path used by the lambda handler).
* `app/services/aws_service.py` — the legacy single-query
  `AWSService.analyze_document` and `AWSService.cleanup_old_files`.
* `src/functions/lambda_function.py` — `handle_query`.
* `app/utils/image_processing.py` — `circle_the_info_on_image`.
* `app/services/cleanup_service.py` — `CleanupService` lifecycle.

Modelling conventions: network calls (Textract, S3, OpenAI) are replaced by
their results, passed in as parameters; machine floats of the geometry are
modelled as exact rationals (the concrete inputs used below evaluate to the
same integers under IEEE-754 doubles); Python exceptions are modelled by an
`Except` of an error kind mirroring the `except` clauses the code uses.
-/

/-- One entry of a `Relationships` list of a Textract block: the code only
reads `relationships[0].get("Ids")`, so only the id list is modelled.
A missing `Ids` key and an empty `Ids` list are both falsy in Python and
behave identically in the code, so both are modelled as `ids = []`. -/
structure Relationship where
  ids : List String
deriving DecidableEq

/-- The `Geometry.BoundingBox` sub-object of a Textract block, with the four
fractional coordinates. Python floats are modelled as rationals. -/
structure BoundingBox where
  left : ℚ
  top : ℚ
  width : ℚ
  height : ℚ
deriving DecidableEq

/-- A Textract response block, with exactly the fields
`lib/aws_service.py` and `app/services/aws_service.py` read:
`Id`, `BlockType`, `Query.Alias` (defaulted to `""` by the code when the
`Query` or `Alias` key is missing), `Relationships`, `Text`, `Confidence`,
`Geometry.BoundingBox`. `Option` marks keys the code reads with `.get`. -/
structure Block where
  id : String
  blockType : String
  queryAlias : String
  relationships : List Relationship
  text : Option String
  confidence : Option ℚ
  geometry : Option BoundingBox
deriving DecidableEq

/-- One element of the list returned by the batch
`AWSService.analyze_document` (`lib/aws_service.py`): the dict
`{"query", "answer", "confidence", "geometry", "query_id"}`. The empty
geometry dict `{}` is modelled as `none`. -/
structure QueryResult where
  query : String
  answer : String
  confidence : ℚ
  geometry : Option BoundingBox
  queryId : String
deriving DecidableEq

/-- `block_map.get(answer_id)`: the Python dict comprehension
`{block["Id"]: block for block in blocks}` lets a later block overwrite an
earlier one with the same id, so the lookup finds the last such block. -/
def lookupBlock (blocks : List Block) (i : String) : Option Block :=
  blocks.reverse.find? (fun b => b.id == i)

/-- The answer-block id extracted from a `QUERY` block:
`relationships[0]["Ids"][0]` guarded by
`if relationships and relationships[0].get("Ids")`. -/
def answerId (b : Block) : Option String :=
  match b.relationships with
  | [] => none
  | r :: _ =>
    match r.ids with
    | [] => none
    | i :: _ => some i

/-- The per-alias entry stored into `query_results[alias]` by the first
pass of the batch `analyze_document`. -/
structure AnsEntry where
  answer : String
  confidence : ℚ
  geometry : Option BoundingBox
  queryId : String
deriving DecidableEq

/-- First-pass resolution of one `QUERY` block `b`:
`answer_block = block_map.get(answer_id, {}) if answer_id else {}`, then the
lenient `.get` defaults `"No answer found"`, `0.0` and `{}`. -/
def resolveQuery (blocks : List Block) (b : Block) : AnsEntry :=
  let ansBlock : Option Block :=
    match answerId b with
    | none => none
    | some i => lookupBlock blocks i
  { answer := (ansBlock.bind Block.text).getD "No answer found"
  , confidence := (ansBlock.bind Block.confidence).getD 0
  , geometry := ansBlock.bind Block.geometry
  , queryId := b.id }

/-- The final contents of `query_results[alias]` after the first pass:
assignments happen in block order, so the last `QUERY` block carrying the
alias wins; `none` when no `QUERY` block carries the alias. -/
def queryResults (blocks : List Block) (al : String) : Option AnsEntry :=
  ((blocks.filter (fun b => b.blockType == "QUERY" && b.queryAlias == al)).getLast?).map
    (resolveQuery blocks)

/-- The alias `f'query_{i}'` assigned to position `i` of the batch. -/
def aliasFor (i : ℕ) : String :=
  "query_" ++ toString i

/-- The result record appended for position `i` by the second pass of the
batch `analyze_document`: the resolved entry when `alias in query_results`,
otherwise the fallback record. -/
def mkResult (blocks : List Block) (i : ℕ) (q : String) : QueryResult :=
  match queryResults blocks (aliasFor i) with
  | some e =>
    { query := q, answer := e.answer, confidence := e.confidence
    , geometry := e.geometry, queryId := e.queryId }
  | none =>
    { query := q, answer := "No answer found", confidence := 0
    , geometry := none, queryId := "" }

/-- The second pass `for i, query in enumerate(queries)` of the batch
`analyze_document`, with the running index made explicit. -/
def analyze_document_from (blocks : List Block) : ℕ → List String → List QueryResult
  | _, [] => []
  | i, q :: qs => mkResult blocks i q :: analyze_document_from blocks (i + 1) qs

/-- `AWSService.analyze_document` of `lib/aws_service.py`, abstracted over
the Textract response `blocks` (the network call itself is external): builds
the alias batch, resolves every `QUERY` block, and emits one result per
input query in input order. -/
def analyze_document (blocks : List Block) (queries : List String) : List QueryResult :=
  analyze_document_from blocks 0 queries

/-- Decidable form of "some `QUERY` block with this alias links (through its
first relationship id) to a block of type `QUERY_RESULT`". -/
def resolvesToResult (blocks : List Block) (b : Block) : Bool :=
  match answerId b with
  | none => false
  | some i =>
    match lookupBlock blocks i with
    | none => false
    | some ab => ab.blockType == "QUERY_RESULT"

/-- The raw answer graph links a `QUERY_RESULT` block to `al`. -/
def linksAnswerBlock (blocks : List Block) (al : String) : Bool :=
  blocks.any (fun b => b.blockType == "QUERY" && b.queryAlias == al &&
    resolvesToResult blocks b)

/-- Well-formedness of the raw answer graph per the data model: a `QUERY`
block's answer relationship, when it resolves in the block map at all,
points to a `QUERY_RESULT` block. -/
def wellFormedGraph (blocks : List Block) : Bool :=
  blocks.all (fun b =>
    !(b.blockType == "QUERY") ||
    (match answerId b with
     | none => true
     | some i =>
       match lookupBlock blocks i with
       | none => true
       | some ab => ab.blockType == "QUERY_RESULT"))

/-- The record returned by the legacy single-query
`AWSService.analyze_document` (`app/services/aws_service.py`): only
`query`, `answer` and `confidence` — it carries no `geometry` and no
`query_id` field. -/
structure LegacyResult where
  query : String
  answer : String
  confidence : ℚ
deriving DecidableEq

/-- The kinds of Python exception the embedded code distinguishes with its
`except` clauses: `FileNotFoundError`, `ValueError`, and every other
`Exception` (`ClientError`s are re-raised by the service layer as plain
`Exception`s before they reach `handle_query`, so they land in `generic`). -/
inductive PyExc where
  | fileNotFound (msg : String)
  | valueError (msg : String)
  | generic (msg : String)
deriving DecidableEq

/-- `str(e)` of an exception. -/
def PyExc.msg : PyExc → String
  | .fileNotFound m => m
  | .valueError m => m
  | .generic m => m

/-- The legacy single-query `AWSService.analyze_document` of
`app/services/aws_service.py`, abstracted over the Textract response: it
returns the first block whose `BlockType` is `QUERY_RESULT` (no relationship
resolution), reading `block["Text"]` unguarded — a `QUERY_RESULT` block
without a `Text` key raises `KeyError`; with no such block it returns the
fallback record with answer `"No relevant answer found."`. -/
def analyze_document_legacy (blocks : List Block) (q : String) : Except PyExc LegacyResult :=
  match blocks.find? (fun b => b.blockType == "QUERY_RESULT") with
  | some b =>
    match b.text with
    | some t => Except.ok { query := q, answer := t, confidence := b.confidence.getD 0 }
    | none => Except.error (.generic "KeyError: Text")
  | none =>
    Except.ok { query := q, answer := "No relevant answer found.", confidence := 0 }

/-- `AWSService.get_file` of `lib/aws_service.py`, abstracted over the S3
listing for the prefix `documents/{file_id}/` (`objects` is the listing's
(key, body) pairs, in listing order). The body raises
`FileNotFoundError("File not found")` when the listing is empty, but the
method's own blanket `except Exception` clause catches that very exception
and re-raises it as a plain
`Exception(f"Error retrieving file: {str(e)}")` — so the error kind that
escapes the method is `generic`, never `fileNotFound`. -/
def get_file (objects : List (String × String)) : Except PyExc String :=
  let inner : Except PyExc String :=
    match objects with
    | [] => Except.error (.fileNotFound "File not found")
    | (_, body) :: _ => Except.ok body
  match inner with
  | Except.ok c => Except.ok c
  | Except.error e => Except.error (.generic ("Error retrieving file: " ++ e.msg))

/-- A Python subscript key: an int or a str. -/
inductive PyKey where
  | int (i : ℤ)
  | str (s : String)

/-- Subscripting a Python list: an int indexes (with negative wrap-around),
out-of-range raises `IndexError`, and a str key raises
`TypeError("list indices must be integers or slices, not str")`. -/
def pyListGet (xs : List QueryResult) (k : PyKey) : Except PyExc QueryResult :=
  match k with
  | .str _ => Except.error (.generic "list indices must be integers or slices, not str")
  | .int i =>
    let j : ℤ := if i < 0 then i + xs.length else i
    if h : 0 ≤ j ∧ j.toNat < xs.length then Except.ok (xs.get ⟨j.toNat, h.2⟩)
    else Except.error (.generic "list index out of range")

/-- A Python `for` loop over a `str` yields its one-character substrings;
this is what `enumerate(queries)` sees when `analyze_document` is handed a
plain string instead of a list. -/
def pyStrIter (s : String) : List String :=
  s.toList.map (fun c => String.mk [c])

/-- The HTTP response dict `{'statusCode': ..., 'body': ...}` returned by
the lambda handler; the body's JSON serialisation is abstracted to the
error message (error case) or a rendering of the result fields. -/
structure HttpResp where
  statusCode : ℕ
  body : String
deriving DecidableEq

/-- The `except` ladder at the end of `handle_query`:
`FileNotFoundError` → 404, `ValueError` → 400, `Exception` → 500, each with
`json.dumps({'error': str(e)})` abstracted to the message. -/
def excToResp (e : PyExc) : HttpResp :=
  match e with
  | .fileNotFound _ => { statusCode := 404, body := "File not found" }
  | .valueError m => { statusCode := 400, body := m }
  | .generic m => { statusCode := 500, body := m }

/-- `handle_query` of `src/functions/lambda_function.py`, abstracted over
its collaborators: `objects` is the S3 listing behind `get_file`,
`apiKey` the combined Secrets-Manager/environment lookup (`none` means both
failed, which the code turns into a `ValueError`), `rephrase` the outcome of
`OpenAIClient.generate_tick_marking_question` (which has no internal
fallback: its exceptions propagate), and `blocks` the Textract response.
The code passes the rephrased `question` — a `str` — as the `queries`
argument of the batch `analyze_document`, so the string is iterated
character by character, and then subscripts the returned list with the
string key `"query"`. -/
def handle_query (objects : List (String × String)) (apiKey : Option String)
    (rephrase : String → Except PyExc String) (blocks : List Block)
    (fileId userQuery : String) : HttpResp :=
  let run : Except PyExc HttpResp :=
    if fileId = "" ∨ userQuery = "" then
      Except.error (.valueError "Missing required parameters")
    else
      match get_file objects with
      | Except.error e => Except.error e
      | Except.ok _fileContent =>
        match apiKey with
        | none => Except.error (.valueError
            "OpenAI API key not found. Please set OPENAI_API_KEY environment variable.")
        | some _key =>
          match rephrase userQuery with
          | Except.error e => Except.error e
          | Except.ok question =>
            let analysisResult := analyze_document blocks (pyStrIter question)
            match pyListGet analysisResult (PyKey.str "query") with
            | Except.error e => Except.error e
            | Except.ok r =>
              Except.ok { statusCode := 200, body := r.query ++ "; " ++ r.answer }
  match run with
  | Except.ok r => r
  | Except.error e => excToResp e

/-- Python `int()` applied to a (here exact-rational) float: truncation
toward zero. -/
def pyInt (q : ℚ) : ℤ :=
  if 0 ≤ q then q.floor else -((-q).floor)

/-- The arguments of the one `draw.rounded_rectangle` call issued by
`circle_the_info_on_image`: the pixel box `[left, top, right, bottom]`, the
corner `radius`, and the outline `width`. -/
structure DrawCmd where
  left : ℤ
  top : ℤ
  right : ℤ
  bottom : ℤ
  radius : ℤ
  outlineWidth : ℤ
deriving DecidableEq

/-- `circle_the_info_on_image` of `app/utils/image_processing.py`, with the
image decoding/encoding abstracted away: `w × h` are the decoded image's
pixel dimensions and the returned value is the rectangle-drawing call the
function issues (`none` when `geometry` is falsy and nothing is drawn).
A geometry key missing from the dict defaults to 0 via `.get`; the
embedding models a geometry dict with all four keys present. Python's `//`
on ints is floor division, hence `Int.fdiv`. -/
def circle_the_info_on_image (w h : ℤ) (geometry : Option BoundingBox) : Option DrawCmd :=
  match geometry with
  | none => none
  | some g =>
    let left := pyInt (g.left * w) - 3
    let top := pyInt (g.top * h) - 3
    let right := pyInt ((g.left + g.width) * w) + 3
    let bottom := pyInt ((g.top + g.height) * h) + 3
    let radius := Int.fdiv (min (right - left) (bottom - top)) 10
    some { left := left, top := top, right := right, bottom := bottom
         , radius := radius, outlineWidth := 3 }

/-- One object of an S3 listing page: its key and its `LastModified`
timestamp, modelled in seconds. -/
structure S3Obj where
  key : String
  lastModified : ℤ
deriving DecidableEq

/-- The inner loop of `cleanup_old_files` over one page's `Contents`:
objects with `last_modified < cutoff_time` are deleted; a `ClientError`
from `delete_object` (`deleteOk obj.key = false`) is printed and the loop
continues with the remaining objects. Returns (deleted keys, error logs),
each in iteration order. -/
def sweepObjs (cutoff : ℤ) (deleteOk : String → Bool) : List S3Obj → List String × List String
  | [] => ([], [])
  | o :: os =>
    let rest := sweepObjs cutoff deleteOk os
    if o.lastModified < cutoff then
      if deleteOk o.key then (o.key :: rest.1, rest.2)
      else (rest.1, ("Error deleting " ++ o.key) :: rest.2)
    else rest

/-- The paginator loop of `cleanup_old_files`: a page without a `Contents`
key (`none`) is skipped with `continue`; every page is visited. -/
def sweepPages (cutoff : ℤ) (deleteOk : String → Bool) :
    List (Option (List S3Obj)) → List String × List String
  | [] => ([], [])
  | none :: ps => sweepPages cutoff deleteOk ps
  | some objs :: ps =>
    let here := sweepObjs cutoff deleteOk objs
    let rest := sweepPages cutoff deleteOk ps
    (here.1 ++ rest.1, here.2 ++ rest.2)

/-- `AWSService.cleanup_old_files` of `app/services/aws_service.py`
(and the identical `app/cleanup.py` sweep), abstracted over the S3
paginator: `listing` is the full sequence of pages, or `none` when the
listing call itself raises; the whole body sits in a
`try/except Exception` that prints `"Error during cleanup"` and returns
normally, so no failure escapes the function. `cutoff_time = now -
timedelta(hours=hours)`, with time in seconds. -/
def cleanup_old_files (listing : Option (List (Option (List S3Obj))))
    (now : ℤ) (hours : ℤ) (deleteOk : String → Bool) : List String × List String :=
  match listing with
  | none => ([], ["Error during cleanup"])
  | some pages => sweepPages (now - hours * 3600) deleteOk pages

/-- The body of `CleanupService._run_cleanup_service` unrolled over a finite
schedule of ticks: at each tick the loop runs one sweep with that tick's
listing outcome and wall-clock time, then sleeps. Because
`cleanup_old_files` is total (its blanket handler catches everything), every
scheduled tick executes no matter how earlier iterations fared. -/
def runLoop (iters : List (Option (List (Option (List S3Obj))) × ℤ))
    (hours : ℤ) (deleteOk : String → Bool) : List (List String × List String) :=
  match iters with
  | [] => []
  | it :: rest => cleanup_old_files it.1 it.2 hours deleteOk :: runLoop rest hours deleteOk

/-- The observable state of `CleanupService` (`app/services/cleanup_service.py`)
under sequential calls to its API: the `is_running` flag, and the number of
live background loops (threads started and not yet exited-and-joined). -/
structure CleanupService where
  isRunning : Bool
  activeLoops : ℕ
deriving DecidableEq

/-- A freshly constructed `CleanupService`: not running, no thread. -/
def CleanupService.initial : CleanupService :=
  { isRunning := false, activeLoops := 0 }

/-- `CleanupService.start`: `if self.is_running: return` (no-op), else set
the flag and spawn one background thread running the loop. -/
def CleanupService.start (s : CleanupService) : CleanupService :=
  if s.isRunning then s
  else { isRunning := true, activeLoops := s.activeLoops + 1 }

/-- `CleanupService.stop`: set `is_running = False` and, when a thread
exists, `thread.flatten()` — which blocks until the loop has observed the flag
and exited, so afterwards no loop is live. On a never-started or already
stopped service this changes nothing. -/
def CleanupService.stop (s : CleanupService) : CleanupService :=
  { s with isRunning := false, activeLoops := 0 }

/-- The event trace of `_run_cleanup_service` for a loop whose `is_running`
check succeeds `n` times: each iteration sweeps first and sleeps after, so
a started loop's first event is a sweep, immediately on start. -/
def loopTrace : ℕ → List String
  | 0 => []
  | Nat.succ n => "cleanup" :: "sleep" :: loopTrace n

/-- A sentinel record used only as the out-of-range default of `List.getD`
in positional statements; every field differs from the code's fallback
values, so a theorem about an in-range position cannot hold through the
default. -/
def probeResult : QueryResult :=
  { query := "probe", answer := "probe", confidence := 37, geometry := none, queryId := "probe" }

theorem analyze_document_from_length (blocks : List Block) (qs : List String) :
    ∀ j, (analyze_document_from blocks j qs).length = qs.length := by
  induction qs with
  | nil => intro j; rfl
  | cons q qs ih => intro j; simpa [analyze_document_from] using ih (j + 1)

theorem analyze_document_from_getD (blocks : List Block) (d : QueryResult) (qs : List String) :
    ∀ i j, i < qs.length →
      (analyze_document_from blocks j qs).getD i d = mkResult blocks (j + i) (qs.getD i "") := by
  induction qs with
  | nil => intro i j h; cases h
  | cons q qs ih =>
    intro i j h
    cases i with
    | zero => rfl
    | succ i =>
      have h' : i < qs.length := Nat.lt_of_succ_lt_succ h
      have := ih i (j + 1) h'
      simpa [analyze_document_from, List.getD, Nat.add_assoc, Nat.add_comm 1 i] using this

/-- C1: the claim says the composition in `handle_query` (rephrase, then
`analyze_document`) returns one `QueryResult` per input query, in order,
each echoing the original query text. Evaluating the embedded code at a
failing input refutes this: with one stored document, the single query
`"date"`, and a successful rephrase to `"When is the date?"`, `handle_query`
hands the rephrased *string* to the batch `analyze_document` (which iterates
it character by character, echoing rephrased fragments, never the original
text) and then subscripts the returned list with the string key `"query"`,
a `TypeError`, so the caller gets a 500 error and no result records. -/
theorem c1_handle_query_evaluation :
    handle_query [("documents/f/doc.png", "bytes")] (some "sk")
        (fun _ => Except.ok "When is the date?") [] "f" "date"
      = { statusCode := 500, body := "list indices must be integers or slices, not str" }
    ∧ (analyze_document [] (pyStrIter "When is the date?")).map QueryResult.query
      = ["W", "h", "e", "n", " ", "i", "s", " ", "t", "h", "e", " ", "d", "a", "t", "e", "?"]
    ∧ (analyze_document [] (pyStrIter "When is the date?")).length ≠ 1 := by
  refine ⟨by decide, by decide, by decide⟩

/-- C2 counterexample: the claim says a rephrase failure never surfaces as
an error in the caller-visible result. With a stored document present and
`generate_tick_marking_question` raising, `handle_query` returns a 500
carrying the rephrase error — there is no fallback to the original query. -/
theorem c2_counterexample :
    handle_query [("documents/f/doc.png", "b")] (some "sk")
      (fun _ => Except.error (.generic "OpenAI API error")) [] "f" "date"
      = { statusCode := 500, body := "OpenAI API error" } := by
  decide

/-- C2 amended: a rephrase failure aborts the whole request — the exception
from `generate_tick_marking_question` propagates uncaught to `handle_query`'s
blanket handler, which surfaces it to the caller as a 500-equivalent error
carrying the rephrase error message; the original query text is never used
as a fallback and no resolution is attempted. -/
theorem c2_rephrase_failure_aborts (key body : String) (os : List (String × String))
    (k m : String) (blocks : List Block) (fid q : String) (hf : fid ≠ "") (hq : q ≠ "") :
    handle_query ((key, body) :: os) (some k)
      (fun _ => Except.error (.generic m)) blocks fid q
      = { statusCode := 500, body := m } := by
  simp [handle_query, get_file, excToResp, hf, hq]

/-- Witness for C2 at a concrete input. -/
theorem c2_rephrase_failure_aborts_witness :
    ("f" : String) ≠ "" ∧ ("date" : String) ≠ "" ∧
    handle_query [("documents/f/doc.png", "b")] (some "sk")
      (fun _ => Except.error (.generic "boom")) [] "f" "date"
      = { statusCode := 500, body := "boom" } :=
  ⟨by decide, by decide,
    c2_rephrase_failure_aborts "documents/f/doc.png" "b" [] "sk" "boom" [] "f" "date"
      (by decide) (by decide)⟩

/-- C3 counterexample: on the same empty Textract response, the legacy
single-query path answers `"No relevant answer found."` while the batch path
applied to the singleton answers `"No answer found"` — the two fallback
records differ, refuting the claimed equality. -/
theorem c3_counterexample :
    analyze_document_legacy [] "q"
      = Except.ok { query := "q", answer := "No relevant answer found.", confidence := 0 }
    ∧ analyze_document [] ["q"]
      = [{ query := "q", answer := "No answer found", confidence := 0
         , geometry := none, queryId := "" }]
    ∧ "No relevant answer found." ≠ "No answer found" := by
  refine ⟨rfl, by decide, by decide⟩

/-- C3 amended: the legacy path and the batch singleton path agree on the
echoed query text and on confidence 0 when the response answers nothing,
but they are not the same record: the legacy fallback answer string is
`"No relevant answer found."` versus the batch `"No answer found"`, the
legacy record carries no geometry and no query_id fields at all, and the
legacy path selects the first `QUERY_RESULT`-typed block directly instead
of resolving the query's relationship. -/
theorem c3_amended (blocks : List Block) (q : String)
    (h1 : ∀ b ∈ blocks, b.blockType ≠ "QUERY_RESULT")
    (h2 : ∀ b ∈ blocks, b.blockType ≠ "QUERY") :
    analyze_document_legacy blocks q
      = Except.ok { query := q, answer := "No relevant answer found.", confidence := 0 }
    ∧ analyze_document blocks [q]
      = [{ query := q, answer := "No answer found", confidence := 0
         , geometry := none, queryId := "" }] := by
  constructor
  · have hfind : blocks.find? (fun b => b.blockType == "QUERY_RESULT") = none := by
      rw [List.find?_eq_none]
      intro b hb
      simpa using h1 b hb
    simp [analyze_document_legacy, hfind]
  · have hfilter :
        blocks.filter (fun b => b.blockType == "QUERY" && b.queryAlias == aliasFor 0) = [] := by
      rw [List.filter_eq_nil_iff]
      intro b hb
      simp [h2 b hb]
    simp [analyze_document, analyze_document_from, mkResult, queryResults, hfilter]

/-- Witness for C3 at a concrete input: one `LINE` block. -/
theorem c3_amended_witness :
    (∀ b ∈ ([{ id := "1", blockType := "LINE", queryAlias := "", relationships := [],
               text := some "x", confidence := none, geometry := none }] : List Block),
       b.blockType ≠ "QUERY_RESULT")
    ∧ (∀ b ∈ ([{ id := "1", blockType := "LINE", queryAlias := "", relationships := [],
                 text := some "x", confidence := none, geometry := none }] : List Block),
       b.blockType ≠ "QUERY")
    ∧ (analyze_document_legacy
          [{ id := "1", blockType := "LINE", queryAlias := "",
             relationships := [], text := some "x", confidence := none, geometry := none }]
          "q"
        = Except.ok { query := "q", answer := "No relevant answer found.", confidence := 0 }
      ∧ analyze_document
          [{ id := "1", blockType := "LINE", queryAlias := "",
             relationships := [], text := some "x", confidence := none, geometry := none }]
          ["q"]
        = [{ query := "q", answer := "No answer found", confidence := 0,
             geometry := none, queryId := "" }]) :=
  ⟨by decide, by decide,
    c3_amended _ "q" (by decide) (by decide)⟩

/-- C5: the claim says a missing document surfaces as `NotFound` and a
404-equivalent response. Evaluating the embedded code at an empty listing
refutes this: `get_file` does raise `FileNotFoundError`, but its own blanket
`except Exception` clause re-raises it as a plain
`Exception("Error retrieving file: File not found")`, so `handle_query`'s
`except FileNotFoundError` 404 handler (third conjunct: it exists and maps
to 404) never matches and the caller receives a 500. -/
theorem c5_missing_document_evaluation :
    get_file [] = Except.error (.generic "Error retrieving file: File not found")
    ∧ handle_query [] (some "sk") (fun q => Except.ok q) [] "f" "date"
      = { statusCode := 500, body := "Error retrieving file: File not found" }
    ∧ (excToResp (.fileNotFound "File not found")).statusCode = 404 := by
  refine ⟨rfl, by decide, rfl⟩

theorem queryResults_of_no_link (blocks : List Block) (al : String)
    (hwf : wellFormedGraph blocks = true)
    (hnl : linksAnswerBlock blocks al = false) :
    ∀ e, queryResults blocks al = some e →
      e.answer = "No answer found" ∧ e.confidence = 0 ∧ e.geometry = none := by
  intro e he
  unfold queryResults at he
  rcases hb : (blocks.filter (fun b => b.blockType == "QUERY" && b.queryAlias == al)).getLast?
    with _ | b
  · rw [hb] at he
    cases he
  · rw [hb] at he
    have he' : e = resolveQuery blocks b := by
      cases he
      rfl
    have hmem : b ∈ blocks.filter (fun b => b.blockType == "QUERY" && b.queryAlias == al) :=
      List.mem_of_mem_getLast? (Option.mem_def.mpr hb)
    obtain ⟨hbin, hpred⟩ := List.mem_filter.mp hmem
    have htype : b.blockType = "QUERY" := by
      have := (Bool.and_eq_true _ _).mp hpred
      exact beq_iff_eq.mp this.1
    have halias : b.queryAlias = al := by
      have := (Bool.and_eq_true _ _).mp hpred
      exact beq_iff_eq.mp this.2
    have hnores : resolvesToResult blocks b = false := by
      have hall := List.any_eq_false.mp hnl b hbin
      by_contra hc
      have hres : resolvesToResult blocks b = true := by
        cases h : resolvesToResult blocks b
        · exact absurd h hc
        · rfl
      exact hall (by simp [htype, halias, hres])
    subst he'
    rcases hai : answerId b with _ | idx
    · simp [resolveQuery, hai]
    · rcases hlb : lookupBlock blocks idx with _ | ab
      · simp [resolveQuery, hai, hlb]
      · have hw := List.all_eq_true.mp hwf b hbin
        rw [htype] at hw
        simp only [beq_self_eq_true, Bool.not_true, Bool.false_or, hai, hlb] at hw
        simp [resolvesToResult, hai, hlb, hw] at hnores

/-- C4: for every query alias to which the (well-formed) raw answer graph
links no `QUERY_RESULT` block — the empty response included — the batch
`analyze_document` emits the fallback record at that position: answer
`"No answer found"`, confidence 0, geometry absent. The embedding is a
total function, so no such response is an error. -/
theorem c4_no_answer_fallback (blocks : List Block) (queries : List String) (i : ℕ)
    (hwf : wellFormedGraph blocks = true)
    (hnl : linksAnswerBlock blocks (aliasFor i) = false)
    (hi : i < queries.length) :
    ((analyze_document blocks queries).getD i probeResult).answer = "No answer found"
    ∧ ((analyze_document blocks queries).getD i probeResult).confidence = 0
    ∧ ((analyze_document blocks queries).getD i probeResult).geometry = none := by
  have hgd : (analyze_document blocks queries).getD i probeResult
      = mkResult blocks (0 + i) (queries.getD i "") :=
    analyze_document_from_getD blocks probeResult queries i 0 hi
  rw [hgd]
  rw [Nat.zero_add]
  unfold mkResult
  rcases hq : queryResults blocks (aliasFor i) with _ | e
  · exact ⟨rfl, rfl, rfl⟩
  · exact queryResults_of_no_link blocks (aliasFor i) hwf hnl e hq

/-- Witness for C4 at a concrete input: a graph with one `QUERY` block for
alias `query_0` that has no relationships, and one unanswered position. -/
theorem c4_no_answer_fallback_witness :
    wellFormedGraph [{ id := "b1", blockType := "QUERY", queryAlias := "query_0",
                       relationships := [], text := none, confidence := none,
                       geometry := none }] = true
    ∧ linksAnswerBlock [{ id := "b1", blockType := "QUERY", queryAlias := "query_0",
                          relationships := [], text := none, confidence := none,
                          geometry := none }] (aliasFor 0) = false
    ∧ 0 < (["who"] : List String).length
    ∧ (((analyze_document
            [{ id := "b1", blockType := "QUERY", queryAlias := "query_0",
               relationships := [], text := none, confidence := none,
               geometry := none }] ["who"]).getD 0 probeResult).answer = "No answer found"
       ∧ ((analyze_document
            [{ id := "b1", blockType := "QUERY", queryAlias := "query_0",
               relationships := [], text := none, confidence := none,
               geometry := none }] ["who"]).getD 0 probeResult).confidence = 0
       ∧ ((analyze_document
            [{ id := "b1", blockType := "QUERY", queryAlias := "query_0",
               relationships := [], text := none, confidence := none,
               geometry := none }] ["who"]).getD 0 probeResult).geometry = none) :=
  ⟨by decide, by decide, by decide,
    c4_no_answer_fallback _ ["who"] 0 (by decide) (by decide) (by decide)⟩

theorem circle_example_eval :
    circle_the_info_on_image 1000 1000
        (some { left := 1/10, top := 1/10, width := 2/10, height := 1/10 })
      = some { left := 97, top := 97, right := 303, bottom := 203
             , radius := 10, outlineWidth := 3 } := by
  norm_num [circle_the_info_on_image, pyInt]
  decide

/-- C6 counterexample: the claim's corner radius is wrong. At geometry
`{Left: 0.1, Top: 0.1, Width: 0.2, Height: 0.1}` on a 1000×1000 image the
code computes the radius from the margin-EXPANDED box
`[97, 97, 303, 203]`: `min(206, 106) // 10 = 10`, not `floor(200/10) = 20`
(nor `floor` of one-tenth of the shorter un-expanded side, which would be
`100 // 10 = 10` as well — the claim's own arithmetic `floor(200/10)` uses
the longer side). At these values exact rationals and IEEE-754 doubles
produce identical pixel integers. -/
theorem c6_counterexample :
    (circle_the_info_on_image 1000 1000
        (some { left := 1/10, top := 1/10, width := 2/10, height := 1/10 })).map DrawCmd.radius
      ≠ some 20 := by
  rw [circle_example_eval]
  decide

/-- C6 amended: `circle_the_info_on_image` converts the normalized box to
pixel coordinates with the image's actual width and height, expands it by
exactly 3 pixels on every side, draws a 3-pixel-wide outline, and uses a
corner radius equal to the floor of one-tenth of the shorter side of the
margin-EXPANDED box; for the claim's example the drawn box's outer bound
before the 3px margin is the pixel box [100,100]-[300,200] and the radius
is `min(206, 106) // 10 = 10`. -/
theorem c6_amended :
    (∀ w h : ℤ, ∀ g : BoundingBox,
      circle_the_info_on_image w h (some g)
        = some { left := pyInt (g.left * w) - 3
               , top := pyInt (g.top * h) - 3
               , right := pyInt ((g.left + g.width) * w) + 3
               , bottom := pyInt ((g.top + g.height) * h) + 3
               , radius := Int.fdiv
                   (min (pyInt ((g.left + g.width) * w) + 3 - (pyInt (g.left * w) - 3))
                        (pyInt ((g.top + g.height) * h) + 3 - (pyInt (g.top * h) - 3))) 10
               , outlineWidth := 3 })
    ∧ circle_the_info_on_image 1000 1000
        (some { left := 1/10, top := 1/10, width := 2/10, height := 1/10 })
      = some { left := 97, top := 97, right := 303, bottom := 203
             , radius := 10, outlineWidth := 3 }
    ∧ (97 : ℤ) + 3 = 100 ∧ (303 : ℤ) - 3 = 300 ∧ (203 : ℤ) - 3 = 200 := by
  exact ⟨fun w h g => rfl, circle_example_eval, by decide, by decide, by decide⟩

theorem sweepObjs_eq (cutoff : ℤ) (dOk : String → Bool) (objs : List S3Obj) :
    sweepObjs cutoff dOk objs
      = ((objs.filter (fun o => decide (o.lastModified < cutoff) && dOk o.key)).map S3Obj.key,
         (objs.filter (fun o => decide (o.lastModified < cutoff) && !dOk o.key)).map
           (fun o => "Error deleting " ++ o.key)) := by
  induction objs with
  | nil => rfl
  | cons o os ih =>
    by_cases h1 : o.lastModified < cutoff
    · by_cases h2 : dOk o.key
      · simp [sweepObjs, List.filter_cons, h1, h2, ih]
      · simp [sweepObjs, List.filter_cons, h1, h2, ih]
    · simp [sweepObjs, List.filter_cons, h1, ih]

theorem sweepPages_eq (cutoff : ℤ) (dOk : String → Bool) (pages : List (Option (List S3Obj))) :
    sweepPages cutoff dOk pages
      = (((pages.filterMap id).flatten.filter
            (fun o => decide (o.lastModified < cutoff) && dOk o.key)).map S3Obj.key,
         ((pages.filterMap id).flatten.filter
            (fun o => decide (o.lastModified < cutoff) && !dOk o.key)).map
           (fun o => "Error deleting " ++ o.key)) := by
  induction pages with
  | nil => rfl
  | cons p ps ih =>
    cases p with
    | none => simpa [sweepPages, List.filterMap_cons] using ih
    | some objs =>
      simp [sweepPages, List.filterMap_cons, sweepObjs_eq, ih,
        List.filter_append, List.map_append]

/-- C7: one sweep iteration with every deletion succeeding visits every
page of the listing and deletes exactly the objects whose age
`now - last_modified` strictly exceeds the retention window of
`hours` hours (the code's `last_modified < now - timedelta(hours=hours)`);
in particular, with objects aged 10h, 25h and 30h spread over two pages
(plus one page without a `Contents` key) and a 24h window, exactly the 25h
and 30h objects are deleted. -/
theorem c7_sweep_deletes_expired :
    (∀ pages (now hours : ℤ),
      (cleanup_old_files (some pages) now hours (fun _ => true)).1
        = ((pages.filterMap id).flatten.filter
            (fun o => decide (hours * 3600 < now - o.lastModified))).map S3Obj.key)
    ∧ (cleanup_old_files
         (some [some [{ key := "age10h", lastModified := 90 * 3600 },
                      { key := "age25h", lastModified := 75 * 3600 }], none,
                some [{ key := "age30h", lastModified := 70 * 3600 }]])
         (100 * 3600) 24 (fun _ => true)).1
      = ["age25h", "age30h"] := by
  constructor
  · intro pages now hours
    show (sweepPages (now - hours * 3600) (fun _ => true) pages).1 = _
    rw [sweepPages_eq]
    dsimp only
    congr 1
    apply List.filter_congr
    intro o _
    simp only [Bool.and_true, decide_eq_decide]
    omega
  · decide

/-- C8: failure isolation of the sweep. A deletion failure for one object
is logged (second component) and does not stop the sweep — the deleted set
is exactly the expired objects whose individual delete succeeded, wherever
the failures sit in the listing; a failure of the enumeration itself yields
the caught-and-reported outcome `([], ["Error during cleanup"])` instead of
an exception; and the background loop executes every scheduled tick
regardless of earlier outcomes (the sweep is a total function), as in the
concrete two-tick run whose first tick's listing fails. -/
theorem c8_failure_isolation :
    (∀ pages (now hours : ℤ) dOk,
      cleanup_old_files (some pages) now hours dOk
        = (((pages.filterMap id).flatten.filter
              (fun o => decide (o.lastModified < now - hours * 3600) && dOk o.key)).map S3Obj.key,
           ((pages.filterMap id).flatten.filter
              (fun o => decide (o.lastModified < now - hours * 3600) && !dOk o.key)).map
             (fun o => "Error deleting " ++ o.key)))
    ∧ (∀ (now hours : ℤ) dOk,
        cleanup_old_files none now hours dOk = ([], ["Error during cleanup"]))
    ∧ (∀ iters (hours : ℤ) dOk, (runLoop iters hours dOk).length = iters.length)
    ∧ runLoop [(none, 100 * 3600), (some [some [{ key := "old", lastModified := 0 }]], 100 * 3600)]
        24 (fun _ => true)
      = [([], ["Error during cleanup"]), (["old"], [])] := by
  refine ⟨?_, ?_, ?_, ?_⟩
  · intro pages now hours dOk
    show sweepPages (now - hours * 3600) dOk pages = _
    exact sweepPages_eq _ _ _
  · intro now hours dOk
    rfl
  · intro iters hours dOk
    induction iters with
    | nil => rfl
    | cons it rest ih => simp [runLoop, ih]
  · decide

/-- C9: the sweeper lifecycle `Stopped -> Running -> Stopped` under
sequential API calls: `start` while running is a no-op (and two `start`s
from the initial state leave exactly one live loop), `stop` of a stopped
service is a no-op, `stop` leaves no live loop (it joins the thread before
returning), `stop` then `start` resumes with exactly one live loop, and a
started loop's trace begins with a sweep, before any sleep. -/
theorem c9_lifecycle (s t : CleanupService) (hrun : s.isRunning = true)
    (n : ℕ) (hn : 0 < n) :
    s.start = s
    ∧ CleanupService.initial.start.activeLoops = 1
    ∧ CleanupService.initial.start.start = CleanupService.initial.start
    ∧ CleanupService.initial.stop = CleanupService.initial
    ∧ (t.stop.isRunning = false ∧ t.stop.activeLoops = 0)
    ∧ (t.stop.start.isRunning = true ∧ t.stop.start.activeLoops = 1)
    ∧ (loopTrace n).head? = some "cleanup" := by
  refine ⟨?_, by decide, by decide, by decide, ⟨rfl, rfl⟩, ⟨rfl, rfl⟩, ?_⟩
  · unfold CleanupService.start
    rw [hrun]
    simp
  · cases n with
    | zero => cases hn
    | succ m => rfl

/-- Witness for C9 at a concrete input: a service started once, two ticks. -/
theorem c9_lifecycle_witness :
    CleanupService.initial.start.isRunning = true ∧ (0 : ℕ) < 2
    ∧ (CleanupService.initial.start.start = CleanupService.initial.start
       ∧ CleanupService.initial.start.activeLoops = 1
       ∧ CleanupService.initial.start.start = CleanupService.initial.start
       ∧ CleanupService.initial.stop = CleanupService.initial
       ∧ (CleanupService.initial.start.stop.isRunning = false
          ∧ CleanupService.initial.start.stop.activeLoops = 0)
       ∧ (CleanupService.initial.start.stop.start.isRunning = true
          ∧ CleanupService.initial.start.stop.start.activeLoops = 1)
       ∧ (loopTrace 2).head? = some "cleanup") :=
  ⟨by decide, by decide,
    c9_lifecycle CleanupService.initial.start CleanupService.initial.start (by decide) 2
      (by decide)⟩

/-- C10: the batch resolution pass is total and lenient on malformed
blocks: a `QUERY` block with an empty (or missing) `Relationships` list, or
whose first relationship has no `Ids`, or whose linked answer block lacks
`Text`, `Confidence` and `Geometry`, resolves to the defaults
`"No answer found"`, confidence `0`, empty geometry — no indexing error is
possible, and `analyze_document` still returns one record per query. -/
theorem c10_malformed_blocks_total (blocks : List Block) (b : Block)
    (queries : List String)
    (hmal : b.relationships = []
         ∨ (∃ r rs, b.relationships = r :: rs ∧ r.ids = [])
         ∨ (∃ i ab, answerId b = some i ∧ lookupBlock blocks i = some ab
              ∧ ab.text = none ∧ ab.confidence = none ∧ ab.geometry = none)) :
    resolveQuery blocks b
      = { answer := "No answer found", confidence := 0, geometry := none, queryId := b.id }
    ∧ (analyze_document blocks queries).length = queries.length := by
  constructor
  · rcases hmal with h | ⟨r, rs, hr, hids⟩ | ⟨i, ab, hai, hlb, ht, hc, hg⟩
    · have hai : answerId b = none := by
        unfold answerId
        rw [h]
      simp [resolveQuery, hai]
    · have hai : answerId b = none := by
        unfold answerId
        rw [hr]
        simp [hids]
      simp [resolveQuery, hai]
    · simp [resolveQuery, hai, hlb, ht, hc, hg]
  · exact analyze_document_from_length blocks queries 0

/-- Witness for C10 at a concrete input: a `QUERY` block whose first
relationship has no `Ids`. -/
theorem c10_malformed_blocks_total_witness :
    (({ id := "b1", blockType := "QUERY", queryAlias := "query_0",
        relationships := [{ ids := [] }], text := none, confidence := none,
        geometry := none } : Block).relationships = []
     ∨ (∃ r rs, ({ id := "b1", blockType := "QUERY", queryAlias := "query_0",
                   relationships := [{ ids := [] }], text := none, confidence := none,
                   geometry := none } : Block).relationships = r :: rs ∧ r.ids = [])
     ∨ (∃ i ab, answerId { id := "b1", blockType := "QUERY", queryAlias := "query_0",
                           relationships := [{ ids := [] }], text := none,
                           confidence := none, geometry := none } = some i
          ∧ lookupBlock [] i = some ab
          ∧ ab.text = none ∧ ab.confidence = none ∧ ab.geometry = none))
    ∧ (resolveQuery []
         { id := "b1", blockType := "QUERY", queryAlias := "query_0",
           relationships := [{ ids := [] }], text := none, confidence := none,
           geometry := none }
         = { answer := "No answer found", confidence := 0, geometry := none, queryId := "b1" }
       ∧ (analyze_document [] ["a", "b"]).length = (["a", "b"] : List String).length) :=
  ⟨Or.inr (Or.inl ⟨{ ids := [] }, [], rfl, rfl⟩),
    c10_malformed_blocks_total [] _ ["a", "b"] (Or.inr (Or.inl ⟨{ ids := [] }, [], rfl, rfl⟩))⟩
